import Mathlib

/-!
Verification of the DigiVerify signature-verification engine
(`src/utils/signatureVerifier.js` and the status reduction in `src/App.jsx`).

The JavaScript source is shallowly embedded below.  External library calls
(node-forge parsing/hashing, date formatting) are abstracted as fields of a
`Forge` record; everything the repository's own code computes is translated
directly.  Byte buffers are `List Nat`; JS `Date` values are `Int` timestamps.
-/

abbrev Bytes := List Nat

/-- A JavaScript value appearing as an argument of `TypedArray.slice` at the
`extractByteRange` call site.  `num` is a plain number; `arr2 a b` is a
two-element numeric array (whose `ToNumber` coercion is `NaN`, because its
string form contains a comma); `undef` is `undefined` (`ToNumber` is `NaN`). -/
inductive JsIdx
  | num (n : Nat)
  | arr2 (a b : Nat)
  | undef
  deriving Repr, DecidableEq

/-- JS `ToNumber` of a `JsIdx`, with `none` standing for `NaN`. -/
def jsIdxToNum : JsIdx → Option Nat
  | .num n => some n
  | .arr2 _ _ => none
  | .undef => none

/-- JS `start + length` for the slice end argument: numeric addition when both
coerce to numbers, otherwise (string concatenation containing a comma, or
`undefined` arithmetic) the slice sees `NaN`. -/
def jsIdxAdd (s l : JsIdx) : Option Nat :=
  match jsIdxToNum s, jsIdxToNum l with
  | some a, some b => some (a + b)
  | _, _ => none

/-- `Uint8Array.prototype.slice(start, end)` with `NaN` arguments coerced to
`0` (`ToIntegerOrInfinity`) and indices clamped to the buffer. -/
def jsSlice (bytes : Bytes) (s e : Option Nat) : Bytes :=
  (bytes.drop (s.getD 0)).take (e.getD 0 - s.getD 0)

/-- `extractByteRange(pdfBytes, byteRanges)` (signatureVerifier.js:135):
for each `[start, length]` push `pdfBytes.slice(start, start + length)` and
concatenate the parts. -/
def extractByteRange (pdfBytes : Bytes) (byteRanges : List (JsIdx × JsIdx)) : Bytes :=
  (byteRanges.map (fun p => jsSlice pdfBytes (jsIdxToNum p.1) (jsIdxAdd p.1 p.2))).flatten

/-- A distinguished name as node-forge exposes it: the computed identity
`hash`, the `CN` field, the `E` / `emailAddress` fields and the full
attribute list (shortName, value) in encoding order. -/
structure DName where
  hash : String
  cn : Option String
  eField : Option String
  emailAddress : Option String
  attrs : List (String × String)
  deriving Repr, DecidableEq

structure Validity where
  notBefore : Int
  notAfter : Int
  deriving Repr, DecidableEq

/-- The only public-key fact the source reads: `publicKey.n` (the RSA
modulus), represented by its bit length when present. -/
structure PublicKeyInfo where
  n : Option Nat
  deriving Repr, DecidableEq

/-- A certificate extension value: either a plain string or a structured
value carried together with its `JSON.stringify` rendering. -/
inductive ExtVal
  | str (s : String)
  | structured (rendered : String)
  deriving Repr, DecidableEq

/-- `typeof e.value === 'string' ? e.value : JSON.stringify(e.value)`. -/
def renderExtVal : ExtVal → String
  | .str s => s
  | .structured r => r

structure CertExtension where
  name : String
  value : ExtVal
  deriving Repr, DecidableEq

/-- A decoded X.509 certificate, with `derBytes` the binary string
`forge.asn1.toDer(cert.toAsn1()).getBytes()`. -/
structure Certificate where
  subject : DName
  issuer : DName
  validity : Validity
  serialNumber : String
  publicKey : PublicKeyInfo
  extensions : List CertExtension
  derBytes : String
  deriving Repr, DecidableEq

/-- An authenticated attribute of a CMS signer: its OID `type` and the list
of encoded values (`a.value`, accessed as `a.value[0].value`). -/
structure SigAttr where
  type : String
  values : List String
  deriving Repr, DecidableEq

structure SignerInfo where
  authenticatedAttributes : Option (List SigAttr)
  deriving Repr, DecidableEq

/-- A decoded PKCS#7 / CMS envelope (`forge.pkcs7.messageFromAsn1`). -/
structure Envelope where
  signers : List SignerInfo
  certificates : List Certificate
  deriving Repr, DecidableEq

/-- The external node-forge / formatting primitives the engine calls.
`Except.error` models a thrown exception carrying `err.message`.
`integrityCheck` is the external part of the integrity `try` body for a
present signer: the digest update and `p7.verify()`. -/
structure Forge where
  parseCMS : String → Except String Envelope
  integrityCheck : SignerInfo → Envelope → Bytes → Except String Bool
  utcTimeToDate : String → Except String Int
  sha256hex : String → String
  formatDate : Int → String
  pemParse : String → Except String Certificate
  derParse : String → Except String Certificate

/-- One entry of `result.certificates` (signatureVerifier.js:228). -/
structure ChainEntry where
  subject : String
  issuer : String
  validFrom : Int
  validTo : Int
  serialNumber : String
  isExpired : Bool
  fingerprint : String
  deriving Repr, DecidableEq

/-- The per-signature `result` object of `verifyPDFSignature`. -/
structure VerificationResult where
  signerName : String
  signerEmail : Option String
  signingTime : Option Int
  reason : Option String
  location : Option String
  certificates : List ChainEntry
  integrityValid : Bool
  certTrustValid : Bool
  isExpired : Bool
  isSelfSigned : Bool
  errors : List String
  warnings : List String
  deriving Repr, DecidableEq

/-- A paired signature descriptor (`sigObjects[i]`, signatureVerifier.js:362):
`byteRange` is the nested pair list built at line 333, `contents` the hex
blob, `reason`/`location` the optional text fields. -/
structure SigObj where
  byteRange : Option ((Nat × Nat) × (Nat × Nat))
  contents : Option String
  reason : Option String
  location : Option String
  deriving Repr, DecidableEq

/-- One element of the resolved `signatures` array:
`{ fieldName, ...verResult }`. -/
structure SignatureEntry extends VerificationResult where
  fieldName : String
  deriving Repr, DecidableEq

/-- The resolved value of `verifyPDFSignatures`. -/
structure DocResult where
  numPages : Nat
  signatures : List SignatureEntry
  hasSignatures : Bool
  message : Option String
  deriving Repr, DecidableEq

/-- The resolved value of `verifyCertificate`. -/
structure CertResult where
  subject : List (String × String)
  issuer : List (String × String)
  serialNumber : String
  validFrom : Int
  validTo : Int
  isExpired : Bool
  isSelfSigned : Bool
  fingerprint : String
  publicKeyAlgorithm : String
  keySize : Option Nat
  extensions : List (String × String)
  deriving Repr, DecidableEq

/-- JS `x || null` for a string-or-null `x`: the empty string is falsy. -/
def jsOrNullStr : Option String → Option String
  | some v => if v.isEmpty then none else some v
  | none => none

/-- `forge.pki.oids.signingTime`. -/
def oidSigningTime : String := "1.2.840.113549.1.9.5"

/-- The initial `result` object of `verifyPDFSignature` (lines 165-178). -/
def verifyPDFSignature0 : VerificationResult :=
  { signerName := "Unknown", signerEmail := none, signingTime := none,
    reason := none, location := none, certificates := [],
    integrityValid := false, certTrustValid := false,
    isExpired := false, isSelfSigned := false, errors := [], warnings := [] }

/-- The chain entry built for each certificate (lines 228-236). -/
def chainEntryOfCert (o : Forge) (now : Int) (c : Certificate) : ChainEntry :=
  { subject := match c.subject.cn with
      | some v => v
      | none => String.intercalate ", " (c.subject.attrs.map (fun p => p.1 ++ "=" ++ p.2)),
    issuer := match c.issuer.cn with
      | some v => v
      | none => String.intercalate ", " (c.issuer.attrs.map (fun p => p.1 ++ "=" ++ p.2)),
    validFrom := c.validity.notBefore,
    validTo := c.validity.notAfter,
    serialNumber := c.serialNumber,
    isExpired := decide (now > c.validity.notAfter),
    fingerprint := o.sha256hex c.derBytes }

/-- The argument actually passed to `extractByteRange` at line 188:
`[[byteRange[0], byteRange[1]], [byteRange[2], byteRange[3]]]` where
`byteRange` is the nested pair list, so the first slice receives two arrays
and the second receives `undefined` twice. -/
def signedBytesOfCall (pdfBytes : Bytes) (br : (Nat × Nat) × (Nat × Nat)) : Bytes :=
  extractByteRange pdfBytes
    [(JsIdx.arr2 br.1.1 br.1.2, JsIdx.arr2 br.2.1 br.2.2), (JsIdx.undef, JsIdx.undef)]

/-- The body of the integrity `try` (lines 239-243).  `p7.signers` is
truthy even when empty, so `p7.signers[0]` can be `undefined`, and then
`signerInfo.md` at line 240 deterministically throws before any external
call; with a present signer the digest update and `p7.verify()` are the
external `integrityCheck`. -/
def integrityTry (o : Forge) (signerInfo : Option SignerInfo) (p7 : Envelope)
    (signedBytes : Bytes) : Except String Bool :=
  match signerInfo with
  | none => .error "Cannot read properties of undefined"
  | some si => o.integrityCheck si p7 signedBytes

/-- The `if (cert)` branch of `verifyPDFSignature` (lines 206-251). -/
def certBranch (o : Forge) (now : Int) (cert : Certificate) (p7 : Envelope)
    (signerInfo : Option SignerInfo) (signedBytes : Bytes) : VerificationResult :=
  let isExpired := decide (now > cert.validity.notAfter)
  let isSelfSigned := cert.issuer.hash == cert.subject.hash
  let integrity := integrityTry o signerInfo p7 signedBytes
  { verifyPDFSignature0 with
    signerName := match cert.subject.cn with
      | some v => v
      | none => "Unknown",
    signerEmail := if cert.subject.eField.isSome then cert.subject.eField
      else cert.subject.emailAddress,
    isExpired := isExpired,
    isSelfSigned := isSelfSigned,
    warnings :=
      (if isExpired then ["Certificate expired on " ++ o.formatDate cert.validity.notAfter]
       else [])
      ++ (if isSelfSigned then ["Certificate is self-signed and may not be trusted."]
          else []),
    certificates := p7.certificates.map (chainEntryOfCert o now),
    integrityValid := match integrity with
      | .ok b => b
      | .error _ => false,
    errors := match integrity with
      | .ok _ => []
      | .error e => ["Integrity verification failed: " ++ e],
    certTrustValid := !isSelfSigned && !isExpired }

/-- Signing-time extraction (lines 257-264).  `Except.error` carries the
partial result and the message of an exception that escapes to the outer
catch (`a.value[0]` on an empty list, or a throwing `utcTimeToDate`). -/
def signingTimeStep (o : Forge) (signerInfo : Option SignerInfo) (r : VerificationResult) :
    Except (VerificationResult × String) VerificationResult :=
  match signerInfo with
  | none => .ok r
  | some si =>
    match si.authenticatedAttributes with
    | none => .ok r
    | some attrs =>
      match attrs.find? (fun a => a.type == oidSigningTime) with
      | none => .ok r
      | some attr =>
        match attr.values.head? with
        | none => .error (r, "Cannot read properties of undefined")
        | some v =>
          match o.utcTimeToDate v with
          | .error e => .error (r, e)
          | .ok t => .ok { r with signingTime := some t }

/-- The state of `result` after the `if (cert)` / `else` branch
(lines 206-254): `cert` is `p7.certificates[0]`, absent certificates give
the `No certificates found` error. -/
def afterParse (o : Forge) (now : Int) (p7 : Envelope) (pdfBytes : Bytes)
    (br : (Nat × Nat) × (Nat × Nat)) : VerificationResult :=
  match p7.certificates.head? with
  | some cert => certBranch o now cert p7 p7.signers.head? (signedBytesOfCall pdfBytes br)
  | none => { verifyPDFSignature0 with errors := ["No certificates found in signature."] }

/-- The body of `verifyPDFSignature`'s outer `try` (lines 180-268); an
`Except.error` is an exception reaching the outer `catch`, paired with the
partially filled result at the moment of the throw. -/
def verifyPDFSignatureInner (o : Forge) (now : Int) (sigObj : SigObj) (pdfBytes : Bytes) :
    Except (VerificationResult × String) VerificationResult :=
  match sigObj.byteRange, sigObj.contents with
  | some br, some contents =>
    if contents.isEmpty then
      .ok { verifyPDFSignature0 with
            errors := ["Missing ByteRange or Contents in signature dictionary."] }
    else
      match o.parseCMS contents with
      | .error e =>
        .ok { verifyPDFSignature0 with
              errors := ["Failed to parse signature CMS data: " ++ e] }
      | .ok p7 =>
        let r1 := afterParse o now p7 pdfBytes br
        match signingTimeStep o p7.signers.head? r1 with
        | .error pe => .error pe
        | .ok r2 =>
          .ok { r2 with reason := jsOrNullStr sigObj.reason,
                        location := jsOrNullStr sigObj.location }
  | _, _ =>
    .ok { verifyPDFSignature0 with
          errors := ["Missing ByteRange or Contents in signature dictionary."] }

/-- `verifyPDFSignature(sigObj, pdfBytes)` (lines 164-275): the outer
`catch` appends `'Unexpected error: ' + err.message` to the partial result. -/
def verifyPDFSignature (o : Forge) (now : Int) (sigObj : SigObj) (pdfBytes : Bytes) :
    VerificationResult :=
  match verifyPDFSignatureInner o now sigObj pdfBytes with
  | .ok r => r
  | .error pe => { pe.1 with errors := pe.1.errors ++ ["Unexpected error: " ++ pe.2] }

/-- One `/ByteRange [a b c d]` regex match (lines 331-339): the four parsed
integers and the match position. -/
structure ByteRangeMatch where
  a : Nat
  b : Nat
  c : Nat
  d : Nat
  brIndex : Nat
  deriving Repr, DecidableEq

/-- One `/Contents <hex>` regex match (lines 343-347). -/
structure ContentsMatch where
  hex : String
  idx : Nat
  deriving Repr, DecidableEq

/-- One `/Reason (...)` or `/Location (...)` regex match (lines 349-359). -/
structure TextMatch where
  value : String
  idx : Nat
  deriving Repr, DecidableEq

/-- Recursive form of `sigDataList.map((sd, i) => ...)` (lines 362-367):
the i-th byte-range match is paired with the i-th contents, reason and
location matches by list index; a missing match becomes `null`. -/
def pairAux (cs : List ContentsMatch) (rs ls : List TextMatch) :
    Nat → List ByteRangeMatch → List SigObj
  | _, [] => []
  | i, br :: rest =>
    { byteRange := some ((br.a, br.b), (br.c, br.d)),
      contents := (cs.get? i).map ContentsMatch.hex,
      reason := (rs.get? i).map TextMatch.value,
      location := (ls.get? i).map TextMatch.value } :: pairAux cs rs ls (i + 1) rest

def pairSigObjects (brs : List ByteRangeMatch) (cs : List ContentsMatch)
    (rs ls : List TextMatch) : List SigObj :=
  pairAux cs rs ls 0 brs

/-- Recursive form of the verification loop (lines 370-378): for each
`sigObjects[i]`, a field name (from `sigFields[i]`, or a synthetic
`Signature N`) together with `verifyPDFSignature(sigObj, pdfBytes)`. -/
def verifyListAux (o : Forge) (now : Int) (pdfBytes : Bytes) (names : List String) :
    Nat → List SigObj → List SignatureEntry
  | _, [] => []
  | i, obj :: rest =>
    { toVerificationResult := verifyPDFSignature o now obj pdfBytes,
      fieldName := match names.get? i with
        | some n => n
        | none => "Signature " ++ toString (i + 1) }
      :: verifyListAux o now pdfBytes names (i + 1) rest

def verifySignatureList (o : Forge) (now : Int) (sigObjects : List SigObj)
    (names : List String) (pdfBytes : Bytes) : List SignatureEntry :=
  verifyListAux o now pdfBytes names 0 sigObjects

/-- The resolving part of `verifyPDFSignatures` (lines 280-392), taking the
document's page count, the enumerated signature-field names and the four
regex match lists as inputs. -/
def verifyPDFSignatures (o : Forge) (now : Int) (numPages : Nat)
    (names : List String) (brs : List ByteRangeMatch) (cs : List ContentsMatch)
    (rs ls : List TextMatch) (pdfBytes : Bytes) : DocResult :=
  if names.isEmpty then
    { numPages := numPages, signatures := [], hasSignatures := false,
      message := some "No digital signatures found in this document." }
  else
    let sigObjects := pairSigObjects brs cs rs ls
    let signatures := verifySignatureList o now sigObjects names pdfBytes
    { numPages := numPages, signatures := signatures,
      hasSignatures := decide (signatures.length > 0), message := none }

/-- `getOverallStatus(sig)` (lines 482-489). -/
def getOverallStatus (sig : VerificationResult) : String :=
  if sig.errors.length > 0 then "invalid"
  else if sig.isExpired then "expired"
  else if sig.isSelfSigned then "self-signed"
  else if !sig.integrityValid then "tampered"
  else if !sig.certTrustValid then "untrusted"
  else "valid"

def statusOfEntry (e : SignatureEntry) : String :=
  getOverallStatus e.toVerificationResult

/-- The reducer body of `PDFVerifierTab.overallStatus` (App.jsx:413-418). -/
def reduceStep (acc s : String) : String :=
  if s == "invalid" || s == "tampered" then "invalid"
  else if acc == "valid" && (s == "expired" || s == "self-signed" || s == "untrusted") then s
  else acc

def docReduce (sigs : List SignatureEntry) : String :=
  sigs.foldl (fun acc e => reduceStep acc (statusOfEntry e)) "valid"

/-- `result.hasSignatures ? result.signatures.reduce(...) : 'none'`
(App.jsx:411-420). -/
def docOverallStatus (r : DocResult) : String :=
  if r.hasSignatures then docReduce r.signatures else "none"

/-- JS object construction of `extractDN` (lines 446-452): later attributes
with the same short name overwrite, first-insertion order is kept. -/
def objInsert (m : List (String × String)) (k v : String) : List (String × String) :=
  if m.any (fun p => p.1 == k) then m.map (fun p => if p.1 == k then (k, v) else p)
  else m ++ [(k, v)]

def extractDN (attrs : List (String × String)) : List (String × String) :=
  attrs.foldl (fun m p => objInsert m p.1 p.2) []

def jsWhitespace (c : Char) : Bool :=
  c == ' ' || c == '\t' || c == '\n' || c == '\r'

/-- Leading and trailing whitespace stripping, as `ToNumber` applies to a
string before reading the numeric literal. -/
def trimChars (l : List Char) : List Char :=
  ((l.dropWhile jsWhitespace).reverse.dropWhile jsWhitespace).reverse

/-- The value of a whole-string decimal literal: `some 0` for the empty
string, the numeral's value for a digit string, `none` (`NaN`) otherwise. -/
def digitsVal (l : List Char) : Option Nat :=
  l.foldl (fun acc c => match acc with
    | none => none
    | some n => if '0' ≤ c ∧ c ≤ '9' then some (n * 10 + (c.toNat - 48)) else none)
    (some 0)

/-- JS `ToIndex(ToNumber(text))` as `new Uint8Array(text)` applies it to a
primitive string: the whole text read as a number, `NaN` (hence `0`) unless
it is a plain decimal literal.  Modeled for optionally-whitespace-padded
nonnegative integer literals; fractional/hex/exponent literals and the
`RangeError` cases (negative or huge values) do not occur for certificate
file contents. -/
def jsStrToIndex (s : String) : Nat :=
  match digitsVal (trimChars s.data) with
  | some n => n
  | none => 0

/-- The DER fallback input (lines 411-412):
`new Uint8Array(e.target.result)` on the *primitive string* produced by
`readAsText` is a `ToIndex` length coercion, not an element conversion — it
allocates a zero-filled buffer (length `0` for any non-numeric text), so
`Array.from(...).map(b => String.fromCharCode(b)).join('')` yields a string
of NUL characters unrelated to the file's bytes. -/
def derStrOfText (s : String) : String :=
  String.mk (List.replicate (jsStrToIndex s) (Char.ofNat 0))

/-- The successful result object of `verifyCertificate` (lines 421-433). -/
def certInfoOf (o : Forge) (now : Int) (cert : Certificate) : CertResult :=
  { subject := extractDN cert.subject.attrs,
    issuer := extractDN cert.issuer.attrs,
    serialNumber := cert.serialNumber,
    validFrom := cert.validity.notBefore,
    validTo := cert.validity.notAfter,
    isExpired := decide (now > cert.validity.notAfter),
    isSelfSigned := cert.issuer.hash == cert.subject.hash,
    fingerprint := o.sha256hex cert.derBytes,
    publicKeyAlgorithm := if cert.publicKey.n.isSome then "RSA" else "EC",
    keySize := cert.publicKey.n,
    extensions := cert.extensions.map (fun ex => (ex.name, renderExtVal ex.value)) }

/-- `verifyCertificate(file)` (lines 398-444): try PEM, on failure try DER
on the coerced byte string; if that also fails the whole operation rejects
with `Failed to parse certificate: ...`. -/
def verifyCertificate (o : Forge) (now : Int) (fileText : String) :
    Except String CertResult :=
  match o.pemParse fileText with
  | .ok cert => .ok (certInfoOf o now cert)
  | .error _ =>
    match o.derParse (derStrOfText fileText) with
    | .ok cert => .ok (certInfoOf o now cert)
    | .error e => .error ("Failed to parse certificate: " ++ e)

/-- Severity classes of the spec's total order
`invalid = tampered > expired = self-signed = untrusted > valid`
(spec section 4.6); used only to state document-level claims. -/
def severityRank (s : String) : Nat :=
  if s == "invalid" || s == "tampered" then 2
  else if s == "expired" || s == "self-signed" || s == "untrusted" then 1
  else 0

/-- The most severe single-field severity of a signature list. -/
def maxSeverity (sigs : List SignatureEntry) : Nat :=
  sigs.foldl (fun m e => max m (severityRank (statusOfEntry e))) 0

/-! ### Concrete sample data used by witnesses and counterexamples -/

def dnAlice : DName :=
  { hash := "h-alice", cn := some "Alice", eField := none, emailAddress := none,
    attrs := [("CN", "Alice")] }

def dnRoot : DName :=
  { hash := "h-root", cn := some "Root", eField := none, emailAddress := none,
    attrs := [("CN", "Root")] }

def certAlice : Certificate :=
  { subject := dnAlice, issuer := dnRoot,
    validity := { notBefore := 0, notAfter := 10 },
    serialNumber := "01", publicKey := { n := some 2048 },
    extensions := [], derBytes := "DER-ALICE" }

/-- An envelope carrying one signer (no signed attributes) and one
certificate, so the line-240 `signerInfo.md` access succeeds. -/
def envAlice : Envelope :=
  { signers := [{ authenticatedAttributes := none }], certificates := [certAlice] }

/-- An envelope whose signer carries a signing-time attribute. -/
def envTimed : Envelope :=
  { signers := [{ authenticatedAttributes := some [{ type := oidSigningTime, values := ["t"] }] }],
    certificates := [certAlice] }

/-- An oracle on which every external step succeeds. -/
def okForge : Forge :=
  { parseCMS := fun _ => .ok envAlice,
    integrityCheck := fun _ _ _ => .ok true,
    utcTimeToDate := fun _ => .ok 0,
    sha256hex := fun s => "fp-" ++ s,
    formatDate := fun _ => "date",
    pemParse := fun _ => .ok certAlice,
    derParse := fun _ => .ok certAlice }

/-- An oracle on which every external step throws. -/
def failForge : Forge :=
  { parseCMS := fun _ => .error "bad cms",
    integrityCheck := fun _ _ _ => .error "boom",
    utcTimeToDate := fun _ => .error "bad utc",
    sha256hex := fun s => "fp-" ++ s,
    formatDate := fun _ => "date",
    pemParse := fun _ => .error "not pem",
    derParse := fun _ => .error "not der" }

/-- Parsing succeeds with a timed signer but the date decoder throws,
so the exception reaches the outer catch of `verifyPDFSignature`. -/
def throwTimeForge : Forge :=
  { okForge with parseCMS := fun _ => .ok envTimed, utcTimeToDate := fun _ => .error "bad utc" }

/-- Parsing succeeds but the envelope carries no certificate. -/
def noCertForge : Forge :=
  { okForge with parseCMS := fun _ => .ok { signers := [], certificates := [] } }

/-- Parsing succeeds and the integrity primitive throws. -/
def badIntegrityForge : Forge :=
  { okForge with integrityCheck := fun _ _ _ => .error "digest mismatch" }

def sigObjA : SigObj :=
  { byteRange := some ((0, 2), (3, 1)), contents := some "aabb",
    reason := none, location := none }

/-- A descriptor whose spans reach far beyond a four-byte document. -/
def sigObjOverrun : SigObj :=
  { byteRange := some ((0, 100), (150, 50)), contents := some "aabb",
    reason := none, location := none }

def bytes4 : Bytes := [1, 2, 3, 4]

/-! ### Helper lemmas -/

lemma signingTimeStep_ok (o : Forge) (si : Option SignerInfo) (r r' : VerificationResult)
    (h : signingTimeStep o si r = .ok r') :
    r'.errors = r.errors ∧ r'.integrityValid = r.integrityValid
      ∧ r'.certTrustValid = r.certTrustValid ∧ r'.isExpired = r.isExpired
      ∧ r'.isSelfSigned = r.isSelfSigned ∧ r'.certificates = r.certificates := by
  unfold signingTimeStep at h
  repeat' split at h
  all_goals first
    | (cases h; exact ⟨rfl, rfl, rfl, rfl, rfl, rfl⟩)
    | cases h

lemma signingTimeStep_error (o : Forge) (si : Option SignerInfo) (r : VerificationResult)
    (pe : VerificationResult × String) (h : signingTimeStep o si r = .error pe) :
    pe.1 = r := by
  unfold signingTimeStep at h
  repeat' split at h
  all_goals first
    | (cases h; rfl)
    | cases h

lemma verify_eq_of_parse (o : Forge) (now : Int) (sigObj : SigObj) (pdfBytes : Bytes)
    (br : (Nat × Nat) × (Nat × Nat)) (c : String) (p7 : Envelope)
    (hbr : sigObj.byteRange = some br) (hc : sigObj.contents = some c)
    (hne : c.isEmpty = false) (hp : o.parseCMS c = .ok p7) :
    verifyPDFSignature o now sigObj pdfBytes =
      match signingTimeStep o p7.signers.head? (afterParse o now p7 pdfBytes br) with
      | .error pe => { pe.1 with errors := pe.1.errors ++ ["Unexpected error: " ++ pe.2] }
      | .ok r2 => { r2 with reason := jsOrNullStr sigObj.reason,
                            location := jsOrNullStr sigObj.location } := by
  unfold verifyPDFSignature verifyPDFSignatureInner
  rw [hbr, hc]
  simp only [hne, Bool.false_eq_true, if_false, hp]
  rcases hst : signingTimeStep o p7.signers.head? (afterParse o now p7 pdfBytes br) with pe | r2 <;>
    simp [hst]

lemma certBranch_isExpired (o : Forge) (now : Int) (cert : Certificate) (p7 : Envelope)
    (si : Option SignerInfo) (sb : Bytes) :
    (certBranch o now cert p7 si sb).isExpired = decide (now > cert.validity.notAfter) := rfl

lemma certBranch_isSelfSigned (o : Forge) (now : Int) (cert : Certificate) (p7 : Envelope)
    (si : Option SignerInfo) (sb : Bytes) :
    (certBranch o now cert p7 si sb).isSelfSigned = (cert.issuer.hash == cert.subject.hash) := rfl

lemma certBranch_certTrustValid (o : Forge) (now : Int) (cert : Certificate) (p7 : Envelope)
    (si : Option SignerInfo) (sb : Bytes) :
    (certBranch o now cert p7 si sb).certTrustValid
      = (!(certBranch o now cert p7 si sb).isSelfSigned
          && !(certBranch o now cert p7 si sb).isExpired) := rfl

lemma certBranch_integrity_ok (o : Forge) (now : Int) (cert : Certificate) (p7 : Envelope)
    (si : Option SignerInfo) (sb : Bytes) (b : Bool)
    (h : integrityTry o si p7 sb = .ok b) :
    (certBranch o now cert p7 si sb).integrityValid = b
      ∧ (certBranch o now cert p7 si sb).errors = [] := by
  unfold certBranch
  rw [h]
  exact ⟨rfl, rfl⟩

lemma certBranch_integrity_error (o : Forge) (now : Int) (cert : Certificate) (p7 : Envelope)
    (si : Option SignerInfo) (sb : Bytes) (e : String)
    (h : integrityTry o si p7 sb = .error e) :
    (certBranch o now cert p7 si sb).integrityValid = false
      ∧ (certBranch o now cert p7 si sb).errors = ["Integrity verification failed: " ++ e] := by
  unfold certBranch
  rw [h]
  exact ⟨rfl, rfl⟩

/-- A certificate-bearing envelope without a signer never reaches
`p7.verify()`: line 240 throws, the catch records the failure. -/
lemma certBranch_no_signer (o : Forge) (now : Int) (cert : Certificate) (p7 : Envelope)
    (sb : Bytes) :
    (certBranch o now cert p7 none sb).integrityValid = false
    ∧ (certBranch o now cert p7 none sb).errors
        = ["Integrity verification failed: Cannot read properties of undefined"] :=
  certBranch_integrity_error o now cert p7 none sb "Cannot read properties of undefined" rfl

lemma verify_fields_of_parse (o : Forge) (now : Int) (sigObj : SigObj) (pdfBytes : Bytes)
    (br : (Nat × Nat) × (Nat × Nat)) (c : String) (p7 : Envelope)
    (hbr : sigObj.byteRange = some br) (hc : sigObj.contents = some c)
    (hne : c.isEmpty = false) (hp : o.parseCMS c = .ok p7) :
    (∃ tail, (verifyPDFSignature o now sigObj pdfBytes).errors
        = (afterParse o now p7 pdfBytes br).errors ++ tail)
    ∧ (verifyPDFSignature o now sigObj pdfBytes).integrityValid
        = (afterParse o now p7 pdfBytes br).integrityValid
    ∧ (verifyPDFSignature o now sigObj pdfBytes).certTrustValid
        = (afterParse o now p7 pdfBytes br).certTrustValid
    ∧ (verifyPDFSignature o now sigObj pdfBytes).isExpired
        = (afterParse o now p7 pdfBytes br).isExpired
    ∧ (verifyPDFSignature o now sigObj pdfBytes).isSelfSigned
        = (afterParse o now p7 pdfBytes br).isSelfSigned
    ∧ (verifyPDFSignature o now sigObj pdfBytes).certificates
        = (afterParse o now p7 pdfBytes br).certificates := by
  rw [verify_eq_of_parse o now sigObj pdfBytes br c p7 hbr hc hne hp]
  rcases hst : signingTimeStep o p7.signers.head? (afterParse o now p7 pdfBytes br) with pe | r2
  · have h1 := signingTimeStep_error _ _ _ _ hst
    refine ⟨⟨["Unexpected error: " ++ pe.2], ?_⟩, ?_, ?_, ?_, ?_, ?_⟩ <;> simp [h1]
  · have h2 := signingTimeStep_ok _ _ _ _ hst
    obtain ⟨he, hi, ht, hx, hs, hcs⟩ := h2
    exact ⟨⟨[], by simp [he]⟩, hi, ht, hx, hs, hcs⟩

lemma verify_missing_byteRange (o : Forge) (now : Int) (sigObj : SigObj) (pdfBytes : Bytes)
    (h : sigObj.byteRange = none ∨ sigObj.contents = none) :
    verifyPDFSignature o now sigObj pdfBytes
      = { verifyPDFSignature0 with
          errors := ["Missing ByteRange or Contents in signature dictionary."] } := by
  unfold verifyPDFSignature verifyPDFSignatureInner
  rcases h with h | h <;> rw [h]
  all_goals
    rcases hb : sigObj.byteRange with _ | br <;>
      rcases hc : sigObj.contents with _ | c <;> rfl

lemma verify_empty_contents (o : Forge) (now : Int) (sigObj : SigObj) (pdfBytes : Bytes)
    (c : String) (hc : sigObj.contents = some c) (he : c.isEmpty = true) :
    verifyPDFSignature o now sigObj pdfBytes
      = { verifyPDFSignature0 with
          errors := ["Missing ByteRange or Contents in signature dictionary."] } := by
  unfold verifyPDFSignature verifyPDFSignatureInner
  rw [hc]
  rcases hb : sigObj.byteRange with _ | br
  · rfl
  · simp [he]

lemma verify_parse_error (o : Forge) (now : Int) (sigObj : SigObj) (pdfBytes : Bytes)
    (br : (Nat × Nat) × (Nat × Nat)) (c : String) (e : String)
    (hbr : sigObj.byteRange = some br) (hc : sigObj.contents = some c)
    (hne : c.isEmpty = false) (hp : o.parseCMS c = .error e) :
    verifyPDFSignature o now sigObj pdfBytes
      = { verifyPDFSignature0 with
          errors := ["Failed to parse signature CMS data: " ++ e] } := by
  unfold verifyPDFSignature verifyPDFSignatureInner
  rw [hbr, hc]
  simp only [hne, Bool.false_eq_true, if_false, hp]

lemma pairAux_length (cs : List ContentsMatch) (rs ls : List TextMatch) :
    ∀ (brs : List ByteRangeMatch) (i : Nat), (pairAux cs rs ls i brs).length = brs.length := by
  intro brs
  induction brs with
  | nil => intro i; rfl
  | cons br rest ih => intro i; simp [pairAux, ih (i + 1)]

lemma pairAux_get? (cs : List ContentsMatch) (rs ls : List TextMatch) :
    ∀ (brs : List ByteRangeMatch) (i j : Nat),
    (pairAux cs rs ls i brs).get? j = (brs.get? j).map (fun br =>
      { byteRange := some ((br.a, br.b), (br.c, br.d)),
        contents := (cs.get? (i + j)).map ContentsMatch.hex,
        reason := (rs.get? (i + j)).map TextMatch.value,
        location := (ls.get? (i + j)).map TextMatch.value }) := by
  intro brs
  induction brs with
  | nil => intro i j; simp [pairAux]
  | cons br rest ih =>
    intro i j
    cases j with
    | zero => simp [pairAux]
    | succ j =>
      have h1 : i + 1 + j = i + (j + 1) := by omega
      have h2 := ih (i + 1) j
      simp only [h1] at h2
      simpa [pairAux] using h2

lemma verifyListAux_length (o : Forge) (now : Int) (pdfBytes : Bytes) (names : List String) :
    ∀ (objs : List SigObj) (i : Nat),
    (verifyListAux o now pdfBytes names i objs).length = objs.length := by
  intro objs
  induction objs with
  | nil => intro i; rfl
  | cons obj rest ih => intro i; simp [verifyListAux, ih (i + 1)]

lemma verifyListAux_get? (o : Forge) (now : Int) (pdfBytes : Bytes) (names : List String) :
    ∀ (objs : List SigObj) (i j : Nat),
    (verifyListAux o now pdfBytes names i objs).get? j = (objs.get? j).map (fun obj =>
      { toVerificationResult := verifyPDFSignature o now obj pdfBytes,
        fieldName := match names.get? (i + j) with
          | some n => n
          | none => "Signature " ++ toString (i + j + 1) }) := by
  intro objs
  induction objs with
  | nil => intro i j; simp [verifyListAux]
  | cons obj rest ih =>
    intro i j
    cases j with
    | zero => simp [verifyListAux]
    | succ j =>
      have h1 : i + 1 + j = i + (j + 1) := by omega
      have h2 := ih (i + 1) j
      simp only [h1] at h2
      simpa [verifyListAux] using h2

lemma getOverallStatus_cases (v : VerificationResult) :
    getOverallStatus v = "invalid" ∨ getOverallStatus v = "expired"
    ∨ getOverallStatus v = "self-signed" ∨ getOverallStatus v = "tampered"
    ∨ getOverallStatus v = "untrusted" ∨ getOverallStatus v = "valid" := by
  unfold getOverallStatus
  repeat' split
  all_goals simp

lemma severityRank_le_two (s : String) : severityRank s ≤ 2 := by
  unfold severityRank
  repeat' split
  all_goals omega

lemma reduceStep_cases (acc s : String) :
    reduceStep acc s = acc ∨ reduceStep acc s = "invalid"
    ∨ (reduceStep acc s = s ∧ severityRank s = 1) := by
  unfold reduceStep
  split
  · right; left; rfl
  · split
    · rename_i h1 h2
      right; right
      refine ⟨rfl, ?_⟩
      have h3 := (Bool.and_eq_true _ _).mp h2
      rcases (Bool.or_eq_true _ _).mp h3.2 with h | h
      · rcases (Bool.or_eq_true _ _).mp h with h | h
        · rw [eq_of_beq h]; rfl
        · rw [eq_of_beq h]; rfl
      · rw [eq_of_beq h]; rfl
    · left; rfl

lemma reduceStep_rank (acc s : String)
    (hacc : severityRank acc = 0 → acc = "valid")
    (hs : s = "invalid" ∨ s = "expired" ∨ s = "self-signed" ∨ s = "tampered"
      ∨ s = "untrusted" ∨ s = "valid") :
    severityRank (reduceStep acc s) = max (severityRank acc) (severityRank s) := by
  have hle := severityRank_le_two acc
  by_cases hv : acc = "valid"
  · subst hv
    rcases hs with h | h | h | h | h | h <;> subst h <;> rfl
  · have h1 : 1 ≤ severityRank acc := by
      rcases Nat.eq_zero_or_pos (severityRank acc) with h0 | h0
      · exact absurd (hacc h0) hv
      · exact h0
    have hb : (acc == "valid") = false := beq_eq_false_iff_ne.mpr hv
    rcases hs with h | h | h | h | h | h <;> subst h
    · have he : reduceStep acc "invalid" = "invalid" := by simp [reduceStep]
      rw [he]
      show (2 : Nat) = max (severityRank acc) 2
      omega
    · have he : reduceStep acc "expired" = acc := by simp [reduceStep, hb]
      rw [he]
      show severityRank acc = max (severityRank acc) 1
      omega
    · have he : reduceStep acc "self-signed" = acc := by simp [reduceStep, hb]
      rw [he]
      show severityRank acc = max (severityRank acc) 1
      omega
    · have he : reduceStep acc "tampered" = "invalid" := by simp [reduceStep]
      rw [he]
      show (2 : Nat) = max (severityRank acc) 2
      omega
    · have he : reduceStep acc "untrusted" = acc := by simp [reduceStep, hb]
      rw [he]
      show severityRank acc = max (severityRank acc) 1
      omega
    · have he : reduceStep acc "valid" = acc := by simp [reduceStep, hb]
      rw [he]
      show severityRank acc = max (severityRank acc) 0
      omega

lemma reduceStep_preserve (acc s : String)
    (hacc : severityRank acc = 0 → acc = "valid") :
    severityRank (reduceStep acc s) = 0 → reduceStep acc s = "valid" := by
  intro h0
  rcases reduceStep_cases acc s with h | h | ⟨h, hr⟩
  · rw [h] at h0 ⊢; exact hacc h0
  · rw [h] at h0; exact absurd h0 (by decide)
  · rw [h] at h0; omega

lemma foldl_max_from (f : SignatureEntry → Nat) :
    ∀ (l : List SignatureEntry) (a : Nat),
    l.foldl (fun m x => max m (f x)) a = max a (l.foldl (fun m x => max m (f x)) 0) := by
  intro l
  induction l with
  | nil => intro a; simp
  | cons x xs ih =>
    intro a
    rw [List.foldl_cons, List.foldl_cons, ih (max a (f x)), ih (max 0 (f x)),
      Nat.zero_max, Nat.max_assoc]

lemma maxSeverity_cons (e : SignatureEntry) (rest : List SignatureEntry) :
    maxSeverity (e :: rest) = max (severityRank (statusOfEntry e)) (maxSeverity rest) := by
  unfold maxSeverity
  rw [List.foldl_cons, foldl_max_from (fun x => severityRank (statusOfEntry x)) rest
    (max 0 (severityRank (statusOfEntry e))), Nat.zero_max]

lemma maxSeverity_mem (e : SignatureEntry) (sigs : List SignatureEntry) (h : e ∈ sigs) :
    severityRank (statusOfEntry e) ≤ maxSeverity sigs := by
  induction sigs with
  | nil => cases h
  | cons x xs ih =>
    rw [maxSeverity_cons]
    rcases List.mem_cons.mp h with h | h
    · subst h; exact Nat.le_max_left _ _
    · exact le_trans (ih h) (Nat.le_max_right _ _)

lemma docReduce_fold (sigs : List SignatureEntry) :
    ∀ (acc : String), (severityRank acc = 0 → acc = "valid") →
    severityRank (sigs.foldl (fun a e => reduceStep a (statusOfEntry e)) acc)
        = max (severityRank acc) (maxSeverity sigs)
    ∧ (sigs.foldl (fun a e => reduceStep a (statusOfEntry e)) acc = acc
       ∨ sigs.foldl (fun a e => reduceStep a (statusOfEntry e)) acc = "invalid"
       ∨ (sigs.foldl (fun a e => reduceStep a (statusOfEntry e)) acc ∈ sigs.map statusOfEntry
          ∧ severityRank (sigs.foldl (fun a e => reduceStep a (statusOfEntry e)) acc) = 1)) := by
  induction sigs with
  | nil =>
    intro acc hacc
    constructor
    · simp [maxSeverity]
    · left; rfl
  | cons e rest ih =>
    intro acc hacc
    have hs := getOverallStatus_cases e.toVerificationResult
    have hstep := reduceStep_rank acc (statusOfEntry e) hacc hs
    have hpres := reduceStep_preserve acc (statusOfEntry e) hacc
    obtain ⟨ih1, ih2⟩ := ih (reduceStep acc (statusOfEntry e)) hpres
    rw [List.foldl_cons] at *
    constructor
    · rw [ih1, hstep, maxSeverity_cons, Nat.max_assoc]
    · rcases ih2 with h | h | ⟨hm, hr⟩
      · rw [h]
        rcases reduceStep_cases acc (statusOfEntry e) with h2 | h2 | ⟨h2, hr2⟩
        · left; exact h2
        · right; left; exact h2
        · right; right
          rw [h2]
          exact ⟨List.mem_cons_self _ _, hr2⟩
      · right; left; exact h
      · right; right
        exact ⟨List.mem_cons_of_mem _ hm, hr⟩

/-! ### Claim theorems -/

/-- C1: `getOverallStatus` is a pure function applying the strict precedence
errors-non-empty > isExpired > isSelfSigned > not-integrityValid >
not-certTrustValid > valid, first match wins; in particular a result with a
non-empty errors list and `isExpired` true classifies as `invalid`, not
`expired`. -/
theorem claim_C1_status_precedence (sig : VerificationResult) :
    (sig.errors ≠ [] → getOverallStatus sig = "invalid")
    ∧ (sig.errors ≠ [] → sig.isExpired = true → getOverallStatus sig = "invalid")
    ∧ (sig.errors = [] → sig.isExpired = true → getOverallStatus sig = "expired")
    ∧ (sig.errors = [] → sig.isExpired = false → sig.isSelfSigned = true →
        getOverallStatus sig = "self-signed")
    ∧ (sig.errors = [] → sig.isExpired = false → sig.isSelfSigned = false →
        sig.integrityValid = false → getOverallStatus sig = "tampered")
    ∧ (sig.errors = [] → sig.isExpired = false → sig.isSelfSigned = false →
        sig.integrityValid = true → sig.certTrustValid = false →
        getOverallStatus sig = "untrusted")
    ∧ (sig.errors = [] → sig.isExpired = false → sig.isSelfSigned = false →
        sig.integrityValid = true → sig.certTrustValid = true →
        getOverallStatus sig = "valid") := by
  refine ⟨?_, ?_, ?_, ?_, ?_, ?_, ?_⟩ <;> intro h1
  · simp [getOverallStatus, List.length_pos.mpr h1]
  · intro h2; simp [getOverallStatus, List.length_pos.mpr h1]
  · intro h2; simp [getOverallStatus, h1, h2]
  · intro h2 h3; simp [getOverallStatus, h1, h2, h3]
  · intro h2 h3 h4; simp [getOverallStatus, h1, h2, h3, h4]
  · intro h2 h3 h4 h5; simp [getOverallStatus, h1, h2, h3, h4, h5]
  · intro h2 h3 h4 h5; simp [getOverallStatus, h1, h2, h3, h4, h5]

/-- A result with both a recorded error and an expired flag, used to witness
the precedence between rules 1 and 2. -/
def sigInvalidExpired : VerificationResult :=
  { verifyPDFSignature0 with errors := ["some failure"], isExpired := true }

theorem claim_C1_status_precedence_witness :
    sigInvalidExpired.errors ≠ [] ∧ sigInvalidExpired.isExpired = true
    ∧ getOverallStatus sigInvalidExpired = "invalid" :=
  ⟨by decide, rfl, (claim_C1_status_precedence sigInvalidExpired).2.1 (by decide) rfl⟩

/-- C6: expiry is the strict comparison `now > notAfter`, both in
`verifyPDFSignature`'s certificate branch and in `verifyCertificate` (and in
the per-chain-entry flag): a certificate whose `notAfter` equals the current
time is not expired, and one tick later it is. -/
theorem claim_C6_expiry_strict (o : Forge) (now : Int) (c : Certificate)
    (p7 : Envelope) (si : Option SignerInfo) (sb : Bytes) :
    ((certBranch o now c p7 si sb).isExpired = decide (now > c.validity.notAfter))
    ∧ ((certInfoOf o now c).isExpired = decide (now > c.validity.notAfter))
    ∧ ((chainEntryOfCert o now c).isExpired = decide (now > c.validity.notAfter))
    ∧ ((certBranch o c.validity.notAfter c p7 si sb).isExpired = false)
    ∧ ((certInfoOf o c.validity.notAfter c).isExpired = false)
    ∧ ((chainEntryOfCert o c.validity.notAfter c).isExpired = false)
    ∧ ((certBranch o (c.validity.notAfter + 1) c p7 si sb).isExpired = true)
    ∧ ((certInfoOf o (c.validity.notAfter + 1) c).isExpired = true)
    ∧ ((chainEntryOfCert o (c.validity.notAfter + 1) c).isExpired = true) := by
  have hlt : c.validity.notAfter < c.validity.notAfter + 1 := by omega
  refine ⟨rfl, rfl, rfl, ?_, ?_, ?_, ?_, ?_, ?_⟩ <;>
    simp [certBranch, certInfoOf, chainEntryOfCert, Int.lt_irrefl, hlt]

/-- C4: whenever the parsed envelope contains a certificate, the verified
result satisfies `certTrustValid = !isSelfSigned && !isExpired`, with
`isSelfSigned` the equality of the issuer and subject identity hashes and
`isExpired` the strict time comparison; no trust store or network is
consulted (the flags are functions of the embedded certificate alone). -/
theorem claim_C4_local_trust (o : Forge) (now : Int) (sigObj : SigObj) (pdfBytes : Bytes)
    (br : (Nat × Nat) × (Nat × Nat)) (c : String) (p7 : Envelope) (cert : Certificate)
    (hbr : sigObj.byteRange = some br) (hc : sigObj.contents = some c)
    (hne : c.isEmpty = false) (hp : o.parseCMS c = .ok p7)
    (hcert : p7.certificates.head? = some cert) :
    (verifyPDFSignature o now sigObj pdfBytes).certTrustValid
      = (!(verifyPDFSignature o now sigObj pdfBytes).isSelfSigned
          && !(verifyPDFSignature o now sigObj pdfBytes).isExpired)
    ∧ (verifyPDFSignature o now sigObj pdfBytes).isSelfSigned
        = (cert.issuer.hash == cert.subject.hash)
    ∧ (verifyPDFSignature o now sigObj pdfBytes).isExpired
        = decide (now > cert.validity.notAfter) := by
  obtain ⟨-, -, ht, hx, hss, -⟩ :=
    verify_fields_of_parse o now sigObj pdfBytes br c p7 hbr hc hne hp
  have hap : afterParse o now p7 pdfBytes br
      = certBranch o now cert p7 p7.signers.head? (signedBytesOfCall pdfBytes br) := by
    unfold afterParse
    rw [hcert]
  rw [ht, hx, hss, hap]
  exact ⟨certBranch_certTrustValid o now cert p7 p7.signers.head? (signedBytesOfCall pdfBytes br),
    certBranch_isSelfSigned o now cert p7 p7.signers.head? (signedBytesOfCall pdfBytes br),
    certBranch_isExpired o now cert p7 p7.signers.head? (signedBytesOfCall pdfBytes br)⟩

theorem claim_C4_local_trust_witness :
    (verifyPDFSignature okForge 0 sigObjA bytes4).certTrustValid
      = (!(verifyPDFSignature okForge 0 sigObjA bytes4).isSelfSigned
          && !(verifyPDFSignature okForge 0 sigObjA bytes4).isExpired)
    ∧ (verifyPDFSignature okForge 0 sigObjA bytes4).isSelfSigned
        = (certAlice.issuer.hash == certAlice.subject.hash)
    ∧ (verifyPDFSignature okForge 0 sigObjA bytes4).isExpired
        = decide ((0 : Int) > certAlice.validity.notAfter) :=
  claim_C4_local_trust okForge 0 sigObjA bytes4 ((0, 2), (3, 1)) "aabb" envAlice certAlice
    rfl rfl rfl rfl rfl

/-- C9: `verifyPDFSignature` is total: it always returns a result, the outer
catch turns any escaping exception into an appended `Unexpected error`
entry, and each failure path (missing descriptor parts, CMS parse failure,
missing certificates, a throwing integrity primitive) leaves a non-empty
errors list instead of propagating the exception. -/
theorem claim_C9_total_error_capture (o : Forge) (now : Int) (sigObj : SigObj)
    (pdfBytes : Bytes) :
    (∀ pe, verifyPDFSignatureInner o now sigObj pdfBytes = .error pe →
      verifyPDFSignature o now sigObj pdfBytes
        = { pe.1 with errors := pe.1.errors ++ ["Unexpected error: " ++ pe.2] }
      ∧ (verifyPDFSignature o now sigObj pdfBytes).errors ≠ [])
    ∧ (∀ r, verifyPDFSignatureInner o now sigObj pdfBytes = .ok r →
        verifyPDFSignature o now sigObj pdfBytes = r)
    ∧ (sigObj.byteRange = none ∨ sigObj.contents = none →
        (verifyPDFSignature o now sigObj pdfBytes).errors
          = ["Missing ByteRange or Contents in signature dictionary."])
    ∧ (∀ br c, sigObj.byteRange = some br → sigObj.contents = some c →
        c.isEmpty = false →
        (∀ e, o.parseCMS c = .error e →
          (verifyPDFSignature o now sigObj pdfBytes).errors
            = ["Failed to parse signature CMS data: " ++ e])
        ∧ (∀ p7, o.parseCMS c = .ok p7 → p7.certificates.head? = none →
            "No certificates found in signature."
              ∈ (verifyPDFSignature o now sigObj pdfBytes).errors)
        ∧ (∀ p7 cert e, o.parseCMS c = .ok p7 → p7.certificates.head? = some cert →
            integrityTry o p7.signers.head? p7 (signedBytesOfCall pdfBytes br) = .error e →
            (verifyPDFSignature o now sigObj pdfBytes).integrityValid = false
            ∧ ("Integrity verification failed: " ++ e)
                ∈ (verifyPDFSignature o now sigObj pdfBytes).errors)) := by
  refine ⟨?_, ?_, ?_, ?_⟩
  · intro pe hpe
    have hv : verifyPDFSignature o now sigObj pdfBytes
        = { pe.1 with errors := pe.1.errors ++ ["Unexpected error: " ++ pe.2] } := by
      unfold verifyPDFSignature
      rw [hpe]
    refine ⟨hv, ?_⟩
    rw [hv]
    simp
  · intro r hr
    unfold verifyPDFSignature
    rw [hr]
  · intro h
    rw [verify_missing_byteRange o now sigObj pdfBytes h]
  · intro br c hbr hc hne
    refine ⟨?_, ?_, ?_⟩
    · intro e hp
      rw [verify_parse_error o now sigObj pdfBytes br c e hbr hc hne hp]
    · intro p7 hp hnone
      obtain ⟨⟨tail, he⟩, -, -, -, -, -⟩ :=
        verify_fields_of_parse o now sigObj pdfBytes br c p7 hbr hc hne hp
      have hap : afterParse o now p7 pdfBytes br
          = { verifyPDFSignature0 with errors := ["No certificates found in signature."] } := by
        unfold afterParse
        rw [hnone]
      rw [he, hap]
      simp
    · intro p7 cert e hp hcert hint
      obtain ⟨⟨tail, he⟩, hi, -, -, -, -⟩ :=
        verify_fields_of_parse o now sigObj pdfBytes br c p7 hbr hc hne hp
      have hap : afterParse o now p7 pdfBytes br
          = certBranch o now cert p7 p7.signers.head? (signedBytesOfCall pdfBytes br) := by
        unfold afterParse
        rw [hcert]
      obtain ⟨hcb1, hcb2⟩ := certBranch_integrity_error o now cert p7 p7.signers.head?
        (signedBytesOfCall pdfBytes br) e hint
      constructor
      · rw [hi, hap, hcb1]
      · rw [he, hap, hcb2]
        simp

theorem claim_C9_total_error_capture_witness :
    (verifyPDFSignature okForge 0
        { byteRange := none, contents := none, reason := none, location := none } bytes4).errors
      = ["Missing ByteRange or Contents in signature dictionary."]
    ∧ (verifyPDFSignature failForge 0 sigObjA bytes4).errors
      = ["Failed to parse signature CMS data: bad cms"]
    ∧ "No certificates found in signature."
        ∈ (verifyPDFSignature noCertForge 0 sigObjA bytes4).errors
    ∧ ((verifyPDFSignature badIntegrityForge 0 sigObjA bytes4).integrityValid = false
       ∧ "Integrity verification failed: digest mismatch"
           ∈ (verifyPDFSignature badIntegrityForge 0 sigObjA bytes4).errors)
    ∧ (verifyPDFSignature throwTimeForge 0 sigObjA bytes4).errors ≠ [] := by
  refine ⟨?_, ?_, ?_, ?_, ?_⟩
  · exact (claim_C9_total_error_capture okForge 0
      { byteRange := none, contents := none, reason := none, location := none } bytes4).2.2.1
      (Or.inl rfl)
  · exact ((claim_C9_total_error_capture failForge 0 sigObjA bytes4).2.2.2
      ((0, 2), (3, 1)) "aabb" rfl rfl rfl).1 "bad cms" rfl
  · exact (((claim_C9_total_error_capture noCertForge 0 sigObjA bytes4).2.2.2
      ((0, 2), (3, 1)) "aabb" rfl rfl rfl).2.1 { signers := [], certificates := [] } rfl rfl)
  · exact (((claim_C9_total_error_capture badIntegrityForge 0 sigObjA bytes4).2.2.2
      ((0, 2), (3, 1)) "aabb" rfl rfl rfl).2.2 envAlice certAlice "digest mismatch" rfl rfl rfl)
  · exact ((claim_C9_total_error_capture throwTimeForge 0 sigObjA bytes4).1 _ rfl).2

/-- C5: the field locator pairs the i-th byte-range match with the i-th
contents, reason and location matches purely by list index; with fewer
contents matches than byte-range matches the surplus descriptors carry
`none`, are still reported (one verified entry per byte-range match), and
verify to the missing-envelope error. -/
theorem claim_C5_positional_pairing (brs : List ByteRangeMatch) (cs : List ContentsMatch)
    (rs ls : List TextMatch) :
    (pairSigObjects brs cs rs ls).length = brs.length
    ∧ (∀ j br, brs.get? j = some br →
        (pairSigObjects brs cs rs ls).get? j = some
          { byteRange := some ((br.a, br.b), (br.c, br.d)),
            contents := (cs.get? j).map ContentsMatch.hex,
            reason := (rs.get? j).map TextMatch.value,
            location := (ls.get? j).map TextMatch.value })
    ∧ (∀ j obj, (pairSigObjects brs cs rs ls).get? j = some obj → cs.get? j = none →
        obj.contents = none
        ∧ ∀ (o : Forge) (now : Int) (pdfBytes : Bytes),
            (verifyPDFSignature o now obj pdfBytes).errors
              = ["Missing ByteRange or Contents in signature dictionary."])
    ∧ (∀ (o : Forge) (now : Int) (names : List String) (pdfBytes : Bytes),
        (verifySignatureList o now (pairSigObjects brs cs rs ls) names pdfBytes).length
          = (pairSigObjects brs cs rs ls).length) := by
  refine ⟨pairAux_length cs rs ls brs 0, ?_, ?_, ?_⟩
  · intro j br hbr
    have h := pairAux_get? cs rs ls brs 0 j
    rw [hbr] at h
    simpa using h
  · intro j obj hobj hcs
    have h := pairAux_get? cs rs ls brs 0 j
    unfold pairSigObjects at hobj
    rw [hobj] at h
    rcases hb : brs.get? j with _ | br
    · rw [hb] at h; cases h
    · rw [hb] at h
      simp only [Nat.zero_add, Option.map_some] at h
      have hcontents : obj.contents = none := by
        cases h
        rw [hcs]
        rfl
      refine ⟨hcontents, ?_⟩
      intro o now pdfBytes
      rw [verify_missing_byteRange o now obj pdfBytes (Or.inr hcontents)]
  · intro o now names pdfBytes
    exact verifyListAux_length o now pdfBytes names (pairSigObjects brs cs rs ls) 0

def brM1 : ByteRangeMatch := { a := 0, b := 2, c := 3, d := 1, brIndex := 10 }

def brM2 : ByteRangeMatch := { a := 0, b := 4, c := 6, d := 2, brIndex := 90 }

def cM1 : ContentsMatch := { hex := "aabb", idx := 20 }

theorem claim_C5_positional_pairing_witness :
    (pairSigObjects [brM1, brM2] [cM1] [] []).get? 1
      = some { byteRange := some ((0, 4), (6, 2)), contents := none,
               reason := none, location := none }
    ∧ (verifyPDFSignature okForge 0
        { byteRange := some ((0, 4), (6, 2)), contents := none,
          reason := none, location := none } bytes4).errors
      = ["Missing ByteRange or Contents in signature dictionary."] := by
  have h := (claim_C5_positional_pairing [brM1, brM2] [cM1] [] []).2.1 1 brM2 rfl
  exact ⟨h, ((claim_C5_positional_pairing [brM1, brM2] [cM1] [] []).2.2.1 1 _ h rfl).2
    okForge 0 bytes4⟩

lemma verifyPDFSignatures_isEmpty (o : Forge) (now : Int) (numPages : Nat)
    (names : List String) (brs : List ByteRangeMatch) (cs : List ContentsMatch)
    (rs ls : List TextMatch) (pdfBytes : Bytes) (hn : names.isEmpty = true) :
    verifyPDFSignatures o now numPages names brs cs rs ls pdfBytes
      = { numPages := numPages, signatures := [], hasSignatures := false,
          message := some "No digital signatures found in this document." } := by
  simp [verifyPDFSignatures, hn]

lemma verifyPDFSignatures_main (o : Forge) (now : Int) (numPages : Nat)
    (names : List String) (brs : List ByteRangeMatch) (cs : List ContentsMatch)
    (rs ls : List TextMatch) (pdfBytes : Bytes) (hn : names.isEmpty = false) :
    verifyPDFSignatures o now numPages names brs cs rs ls pdfBytes
      = { numPages := numPages,
          signatures := verifySignatureList o now (pairSigObjects brs cs rs ls) names pdfBytes,
          hasSignatures := decide
            ((verifySignatureList o now (pairSigObjects brs cs rs ls) names pdfBytes).length > 0),
          message := none } := by
  simp [verifyPDFSignatures, hn]

/-- C10: in every resolved document output, `hasSignatures` is true exactly
when the signatures list is non-empty; in particular, signature-type form
fields with zero byte-range matches yield an empty list and
`hasSignatures = false`. -/
theorem claim_C10_hasSignatures_iff (o : Forge) (now : Int) (numPages : Nat)
    (names : List String) (brs : List ByteRangeMatch) (cs : List ContentsMatch)
    (rs ls : List TextMatch) (pdfBytes : Bytes) :
    ((verifyPDFSignatures o now numPages names brs cs rs ls pdfBytes).hasSignatures = true
      ↔ (verifyPDFSignatures o now numPages names brs cs rs ls pdfBytes).signatures ≠ [])
    ∧ (names ≠ [] → brs = [] →
        (verifyPDFSignatures o now numPages names brs cs rs ls pdfBytes).signatures = []
        ∧ (verifyPDFSignatures o now numPages names brs cs rs ls pdfBytes).hasSignatures
            = false) := by
  rcases hn : names.isEmpty with _ | _
  · have heq := verifyPDFSignatures_main o now numPages names brs cs rs ls pdfBytes hn
    rw [heq]
    constructor
    · simp [List.length_pos]
    · intro h1 h2
      subst h2
      simp [pairSigObjects, pairAux, verifySignatureList, verifyListAux]
  · have heq := verifyPDFSignatures_isEmpty o now numPages names brs cs rs ls pdfBytes hn
    rw [heq]
    constructor
    · simp
    · intro h1
      exact absurd (List.isEmpty_iff.mp hn) h1

theorem claim_C10_hasSignatures_iff_witness :
    (verifyPDFSignatures okForge 0 1 ["Sig1"] [] [] [] [] bytes4).signatures = []
    ∧ (verifyPDFSignatures okForge 0 1 ["Sig1"] [] [] [] [] bytes4).hasSignatures = false :=
  (claim_C10_hasSignatures_iff okForge 0 1 ["Sig1"] [] [] [] [] bytes4).2
    (by decide) rfl

/-- C2: the document-level status is the reduction of `getOverallStatus`
over all signature entries: its severity class equals the most severe
single-field class under invalid=tampered > expired=self-signed=untrusted >
valid; any invalid/tampered field forces the reduced status into the
invalid/tampered class (concretely `invalid`); a middle-class outcome is one
of the field statuses; and zero signatures give `hasSignatures = false` and
status `none`. -/
theorem claim_C2_document_reduction (o : Forge) (now : Int) (numPages : Nat)
    (names : List String) (brs : List ByteRangeMatch) (cs : List ContentsMatch)
    (rs ls : List TextMatch) (pdfBytes : Bytes) :
    ((verifyPDFSignatures o now numPages names brs cs rs ls pdfBytes).signatures = [] →
      (verifyPDFSignatures o now numPages names brs cs rs ls pdfBytes).hasSignatures = false
      ∧ docOverallStatus (verifyPDFSignatures o now numPages names brs cs rs ls pdfBytes)
          = "none")
    ∧ ((verifyPDFSignatures o now numPages names brs cs rs ls pdfBytes).signatures ≠ [] →
        severityRank (docOverallStatus (verifyPDFSignatures o now numPages names brs cs rs ls pdfBytes))
          = maxSeverity (verifyPDFSignatures o now numPages names brs cs rs ls pdfBytes).signatures
        ∧ ((∃ e ∈ (verifyPDFSignatures o now numPages names brs cs rs ls pdfBytes).signatures,
              statusOfEntry e = "invalid" ∨ statusOfEntry e = "tampered") →
            docOverallStatus (verifyPDFSignatures o now numPages names brs cs rs ls pdfBytes)
              = "invalid")
        ∧ (severityRank (docOverallStatus (verifyPDFSignatures o now numPages names brs cs rs ls pdfBytes)) = 1 →
            docOverallStatus (verifyPDFSignatures o now numPages names brs cs rs ls pdfBytes)
              ∈ (verifyPDFSignatures o now numPages names brs cs rs ls pdfBytes).signatures.map statusOfEntry)
        ∧ (severityRank (docOverallStatus (verifyPDFSignatures o now numPages names brs cs rs ls pdfBytes)) = 0 →
            docOverallStatus (verifyPDFSignatures o now numPages names brs cs rs ls pdfBytes)
              = "valid")) := by
  rcases hn : names.isEmpty with _ | _
  · have heq := verifyPDFSignatures_main o now numPages names brs cs rs ls pdfBytes hn
    rw [heq]
    set sigs := verifySignatureList o now (pairSigObjects brs cs rs ls) names pdfBytes with hsigs
    constructor
    · intro h0
      have h0' : sigs = [] := h0
      constructor
      · simp [h0']
      · simp [docOverallStatus, h0']
    · intro hne
      have hne' : sigs ≠ [] := hne
      have hlen : sigs.length > 0 := List.length_pos.mpr hne'
      have hdoc : docOverallStatus
          { numPages := numPages, signatures := sigs,
            hasSignatures := decide (sigs.length > 0), message := none }
          = docReduce sigs := by
        simp [docOverallStatus, hlen]
      obtain ⟨hrank, hcases⟩ := docReduce_fold sigs "valid" (fun _ => rfl)
      have hrank2 : severityRank (docReduce sigs) = maxSeverity sigs := by
        have hr0 : severityRank (docReduce sigs)
            = max (severityRank "valid") (maxSeverity sigs) := hrank
        rw [hr0]
        exact Nat.zero_max _
      have hcases' : docReduce sigs = "valid" ∨ docReduce sigs = "invalid"
          ∨ (docReduce sigs ∈ sigs.map statusOfEntry ∧ severityRank (docReduce sigs) = 1) :=
        hcases
      refine ⟨by rw [hdoc, hrank2], ?_, ?_, ?_⟩
      · rintro ⟨e, he, hst⟩
        have h2 : severityRank (statusOfEntry e) = 2 := by
          rcases hst with h | h <;> rw [h] <;> rfl
        have hge : 2 ≤ maxSeverity sigs := h2 ▸ maxSeverity_mem e sigs he
        have hle := severityRank_le_two (docReduce sigs)
        have heq2 : severityRank (docReduce sigs) = 2 := by
          rw [hrank2]; omega
        rw [hdoc]
        rcases hcases' with h | h | ⟨-, hr⟩
        · rw [h] at heq2
          exact absurd heq2 (by decide)
        · exact h
        · omega
      · intro h1
        rw [hdoc] at h1 ⊢
        rcases hcases' with h | h | ⟨hm, -⟩
        · rw [h] at h1
          exact absurd h1 (by decide)
        · rw [h] at h1
          exact absurd h1 (by decide)
        · exact hm
      · intro h1
        rw [hdoc] at h1 ⊢
        rcases hcases' with h | h | ⟨-, hr⟩
        · exact h
        · rw [h] at h1
          exact absurd h1 (by decide)
        · omega
  · have heq := verifyPDFSignatures_isEmpty o now numPages names brs cs rs ls pdfBytes hn
    rw [heq]
    constructor
    · intro h0
      exact ⟨rfl, rfl⟩
    · intro hne
      exact absurd rfl hne

theorem claim_C2_document_reduction_witness :
    ((verifyPDFSignatures okForge 0 1 [] [] [] [] [] []).hasSignatures = false
     ∧ docOverallStatus (verifyPDFSignatures okForge 0 1 [] [] [] [] [] []) = "none")
    ∧ docOverallStatus (verifyPDFSignatures okForge 0 1 ["Sig1"] [brM1] [] [] [] bytes4)
        = "invalid" := by
  refine ⟨(claim_C2_document_reduction okForge 0 1 [] [] [] [] [] []).1 rfl, ?_⟩
  exact ((claim_C2_document_reduction okForge 0 1 ["Sig1"] [brM1] [] [] [] bytes4).2
    (by decide)).2.1 (by decide)

/-- C7 (amended): the standalone inspector tries PEM first and, on failure,
attempts a DER decode — but of a zero-filled, length-coerced buffer
(`derStrOfText`), not of the input's bytes: the fallback argument depends
on the text only through the numeric length coercion and is empty for
ordinary certificate text, so the DER attempt can never decode any real
binary certificate.  If both attempts fail the whole operation is rejected
with a `Failed to parse certificate` cause and no partial result; on
success the result carries subject, issuer, serial number, validity,
fingerprint, the RSA/EC classification by presence of a modulus, the key
size when derivable, and the rendered extension list. -/
theorem claim_C7_cert_inspector (o : Forge) (now : Int) (text : String) (c : Certificate) :
    (o.pemParse text = .ok c → verifyCertificate o now text = .ok (certInfoOf o now c))
    ∧ (∀ m, o.pemParse text = .error m →
        (o.derParse (derStrOfText text) = .ok c →
          verifyCertificate o now text = .ok (certInfoOf o now c))
        ∧ (∀ m2, o.derParse (derStrOfText text) = .error m2 →
            verifyCertificate o now text = .error ("Failed to parse certificate: " ++ m2)))
    ∧ ((certInfoOf o now c).publicKeyAlgorithm
        = if c.publicKey.n.isSome then "RSA" else "EC")
    ∧ ((certInfoOf o now c).keySize = c.publicKey.n)
    ∧ ((certInfoOf o now c).subject = extractDN c.subject.attrs)
    ∧ ((certInfoOf o now c).issuer = extractDN c.issuer.attrs)
    ∧ ((certInfoOf o now c).serialNumber = c.serialNumber)
    ∧ ((certInfoOf o now c).validFrom = c.validity.notBefore)
    ∧ ((certInfoOf o now c).validTo = c.validity.notAfter)
    ∧ ((certInfoOf o now c).fingerprint = o.sha256hex c.derBytes)
    ∧ ((certInfoOf o now c).extensions
        = c.extensions.map (fun ex => (ex.name, renderExtVal ex.value)))
    ∧ (∀ t1 t2 : String, jsStrToIndex t1 = jsStrToIndex t2 →
        derStrOfText t1 = derStrOfText t2)
    ∧ (jsStrToIndex text = 0 → derStrOfText text = "") := by
  refine ⟨?_, ?_, rfl, rfl, rfl, rfl, rfl, rfl, rfl, rfl, rfl, ?_, ?_⟩
  · intro hp
    unfold verifyCertificate
    rw [hp]
  · intro m hp
    constructor
    · intro hd
      unfold verifyCertificate
      rw [hp, hd]
    · intro m2 hd
      unfold verifyCertificate
      rw [hp, hd]
  · intro t1 t2 h
    unfold derStrOfText
    rw [h]
  · intro h
    unfold derStrOfText
    rw [h]
    rfl

theorem claim_C7_cert_inspector_witness :
    verifyCertificate okForge 0 "some pem text" = .ok (certInfoOf okForge 0 certAlice)
    ∧ verifyCertificate failForge 0 "garbage"
        = .error ("Failed to parse certificate: not der") :=
  ⟨(claim_C7_cert_inspector okForge 0 "some pem text" certAlice).1 rfl,
   ((claim_C7_cert_inspector failForge 0 "garbage" certAlice).2.1 "not pem" rfl).2 "not der" rfl⟩

/-- A decoder that succeeds exactly on one concrete DER file's bytes read
as text, standing for real forge decoding that file; PEM always fails. -/
def derOnlyForge : Forge :=
  { failForge with
    derParse := fun s => if s = "DER-BYTES-AS-TEXT" then .ok certAlice
      else .error "bad der" }

/-- C7 is false as stated: the inspector does not attempt to decode *its
input* as raw binary.  A file whose raw bytes the DER decoder accepts is
still rejected, because the fallback receives the empty length-coerced
buffer instead of those bytes. -/
theorem claim_C7_counterexample :
    derOnlyForge.derParse "DER-BYTES-AS-TEXT" = .ok certAlice
    ∧ derStrOfText "DER-BYTES-AS-TEXT" = ""
    ∧ verifyCertificate derOnlyForge 0 "DER-BYTES-AS-TEXT"
        = .error ("Failed to parse certificate: bad der") :=
  ⟨rfl, by decide, rfl⟩

/-- C8: the certificate fingerprint is a pure function of the encoded
bytes: certificates with identical DER encodings receive identical
fingerprints, both in the signature verifier's chain listing and in the
standalone inspector, and the two places compute the same value. -/
theorem claim_C8_fingerprint_pure (o : Forge) (now now2 : Int) (c c2 : Certificate)
    (h : c.derBytes = c2.derBytes) :
    (chainEntryOfCert o now c).fingerprint = (chainEntryOfCert o now2 c2).fingerprint
    ∧ (certInfoOf o now c).fingerprint = (certInfoOf o now2 c2).fingerprint
    ∧ (chainEntryOfCert o now c).fingerprint = (certInfoOf o now2 c2).fingerprint := by
  refine ⟨?_, ?_, ?_⟩ <;> simp [chainEntryOfCert, certInfoOf, h]

/-- The same encoded bytes as `certAlice` under a different serial number. -/
def certAliceCopy : Certificate := { certAlice with serialNumber := "02" }

theorem claim_C8_fingerprint_pure_witness :
    certAlice.derBytes = certAliceCopy.derBytes
    ∧ (chainEntryOfCert okForge 0 certAlice).fingerprint
        = (certInfoOf okForge 5 certAliceCopy).fingerprint :=
  ⟨rfl, (claim_C8_fingerprint_pure okForge 0 5 certAlice certAliceCopy rfl).2.2⟩

/-- C3 is false on the code: a descriptor whose spans lie far beyond a
four-byte document verifies without any reported error — no bounds check
exists, `slice` silently clamps.  The envelope carries a signer (so the
line-240 `signerInfo.md` access succeeds) and one certificate, parsing and
the verification primitive succeed, and the signature is even classified
`valid`. -/
theorem claim_C3_counterexample :
    (150 + 50 > bytes4.length)
    ∧ (verifyPDFSignature okForge 0 sigObjOverrun bytes4).errors = []
    ∧ getOverallStatus (verifyPDFSignature okForge 0 sigObjOverrun bytes4) = "valid" :=
  ⟨by decide, rfl, rfl⟩

/-- C3 (amended): a byte-range span with `offset + length` exceeding the
document length is not an error: `extractByteRange` silently clamps each
span to the available bytes (the part read is `min length (docLen - start)`
bytes long), verification of the field proceeds, and each signature field's
entry in the verified list depends only on its own descriptor, so sibling
fields verify exactly as before. -/
theorem claim_C3_amended_clamping (bytes : Bytes) (spans : List (Nat × Nat)) :
    (extractByteRange bytes (spans.map (fun p => (JsIdx.num p.1, JsIdx.num p.2)))
      = (spans.map (fun p => (bytes.drop p.1).take p.2)).flatten)
    ∧ ((extractByteRange bytes (spans.map (fun p => (JsIdx.num p.1, JsIdx.num p.2)))).length
      = (spans.map (fun p => min p.2 (bytes.length - p.1))).sum)
    ∧ (∀ (o : Forge) (now : Int) (objs : List SigObj) (names : List String) (j : Nat)
        (obj : SigObj), objs.get? j = some obj →
        ((verifySignatureList o now objs names bytes).get? j).map
            SignatureEntry.toVerificationResult
          = some (verifyPDFSignature o now obj bytes)) := by
  have h1 : extractByteRange bytes (spans.map (fun p => (JsIdx.num p.1, JsIdx.num p.2)))
      = (spans.map (fun p => (bytes.drop p.1).take p.2)).flatten := by
    unfold extractByteRange
    rw [List.map_map]
    congr 1
    apply List.map_congr_left
    intro p _
    simp [jsSlice, jsIdxToNum, jsIdxAdd, Nat.add_sub_cancel_left]
  refine ⟨h1, ?_, ?_⟩
  · rw [h1, List.length_flatten, List.map_map]
    congr 1
    apply List.map_congr_left
    intro p _
    simp [List.length_take, List.length_drop]
  · intro o now objs names j obj hj
    have h := verifyListAux_get? o now bytes names objs 0 j
    rw [hj] at h
    unfold verifySignatureList
    rw [h]
    rfl

theorem claim_C3_amended_clamping_witness :
    extractByteRange bytes4 [(JsIdx.num 150, JsIdx.num 50)] = []
    ∧ (extractByteRange bytes4 [(JsIdx.num 0, JsIdx.num 100)]).length = 4
    ∧ ((verifySignatureList okForge 0 [sigObjOverrun, sigObjA] [] bytes4).get? 0).map
        SignatureEntry.toVerificationResult
      = some (verifyPDFSignature okForge 0 sigObjOverrun bytes4) := by
  refine ⟨?_, ?_, ?_⟩
  · exact ((claim_C3_amended_clamping bytes4 [(150, 50)]).1).trans rfl
  · exact ((claim_C3_amended_clamping bytes4 [(0, 100)]).2.1).trans rfl
  · exact (claim_C3_amended_clamping bytes4 [(0, 100)]).2.2 okForge 0
      [sigObjOverrun, sigObjA] [] 0 sigObjOverrun rfl

/-- At its only call site (line 188) `extractByteRange` receives the nested
byte-range pairs wrapped once more, so every slice argument coerces through
`NaN` to `0` and the extracted signed bytes are always empty, whatever the
declared spans are. -/
lemma signedBytesOfCall_eq_nil (pdfBytes : Bytes) (br : (Nat × Nat) × (Nat × Nat)) :
    signedBytesOfCall pdfBytes br = [] := rfl
